import Mathlib

/-!
Verification of the function-expression dispatch and schema-inference layer
of the polars lazy DSL, shallowly embedded from
`polars-lazy/src/dsl/function_expr/mod.rs` and `polars-lazy/src/dsl/dt.rs`.

Machine integers of the source (`u64` keys, `usize` sizes, `i64` periods)
are modelled as `Nat`/`Int`; panics and out-of-bounds slice accesses are
modelled as `none` of an `Option`; fallible kernels return `Except`.
-/

namespace Polars

/-- Resolution unit of a temporal value, `polars_core::datatypes::TimeUnit`. -/
inductive TimeUnit
| Nanoseconds
| Microseconds
| Milliseconds
deriving DecidableEq, Repr

/-- A time zone is a plain string in this polars version. -/
abbrev TimeZone := String

/-- Column data types, from `polars_core::datatypes::DataType`; the subset of
the closed set that the two embedded source files mention, plus representative
numeric, string and nested kinds. `Datetime` carries a resolution unit and an
optional zone; `Duration` carries a resolution unit. -/
inductive DataType
| Boolean
| UInt32
| Int32
| Int64
| Float64
| Utf8
| Date
| Time
| Datetime (tu : TimeUnit) (tz : Option TimeZone)
| Duration (tu : TimeUnit)
| List (inner : DataType)
deriving DecidableEq, Repr

/-- Rust `Debug` rendering of a `TimeUnit`, used by `format!("{:?}", ..)`. -/
def TimeUnit.fmtDebug : TimeUnit → String
| .Nanoseconds => "Nanoseconds"
| .Microseconds => "Microseconds"
| .Milliseconds => "Milliseconds"

/-- Rust `Debug` rendering of a `DataType`, used by the error messages of
`dt.rs` (`format!("Series of dtype {:?} has got no time unit", dt)`). -/
def DataType.fmtDebug : DataType → String
| .Boolean => "Boolean"
| .UInt32 => "UInt32"
| .Int32 => "Int32"
| .Int64 => "Int64"
| .Float64 => "Float64"
| .Utf8 => "Utf8"
| .Date => "Date"
| .Time => "Time"
| .Datetime tu tz =>
    "Datetime(" ++ tu.fmtDebug ++ ", "
      ++ (match tz with
          | none => "None"
          | some z => "Some(\"" ++ z ++ "\")")
      ++ ")"
| .Duration tu => "Duration(" ++ tu.fmtDebug ++ ")"
| .List inner => "List(" ++ inner.fmtDebug ++ ")"

/-- A column, opaque to this layer except for its name and declared runtime
`DataType` (spec section 3: the core treats it as opaque except for reading
its declared type). -/
structure Series where
  name : String
  dtype : DataType
deriving DecidableEq, Repr

/-- The error type of the layer; `dt.rs` only constructs `ComputeError`. -/
inductive PolarsError
| ComputeError (msg : String)
deriving DecidableEq, Repr

/-- Literal scalar values, `polars_core::datatypes::AnyValue`; the embedded
code never inspects one, only its presence, so the payload is a tag. -/
inductive AnyValue
| mk (tag : Nat)
deriving DecidableEq, Repr

/-- Calendar duration of `polars_time`, carried by `FunctionExpr::DateOffset`;
the embedded code never inspects its fields. -/
structure Duration where
  months : Int
  nsecs : Int
deriving DecidableEq, Repr

/-- Options of the external strptime kernel; carried opaquely by
`StringFunction::Strptime`. -/
structure StrpTimeOptions where
  fmt : Option String
deriving DecidableEq, Repr

/-- Temporal sub-catalog `TemporalFunction`; its variants are exactly the
ones the `From<TemporalFunction>` impl in `mod.rs` (lines 383-402)
dispatches over. -/
inductive TemporalFunction
| Year
| IsoYear
| Month
| Quarter
| Week
| WeekDay
| Day
| OrdinalDay
| Hour
| Minute
| Second
| NanoSecond
| TimeStamp (tu : TimeUnit)
deriving DecidableEq, Repr

/-- String sub-catalog `StringFunction`; its variants and their payloads are
exactly the ones the `From<StringFunction>` impl in `mod.rs` (lines 332-380)
dispatches over, with the same feature gates. -/
inductive StringFunction
| Contains (pat : String) (literal : Bool)
| EndsWith (sub : String)
| StartsWith (sub : String)
| Extract (pat : String) (group_index : Nat)
| ExtractAll (pat : String)
| CountMatch (pat : String)
| Zfill (alignment : Nat)
| LJust (width : Nat) (fillchar : Char)
| RJust (width : Nat) (fillchar : Char)
| Strptime (options : StrpTimeOptions)
| ConcatVertical (delimiter : String)
| ConcatHorizontal (delimiter : String)
| Replace (all : Bool) (literal : Bool)
| Uppercase
| Lowercase
deriving DecidableEq, Repr

/-- List sub-catalog `ListFunction`; `mod.rs` dispatches over the single
variant `Concat` (line 305). -/
inductive ListFunction
| Concat
deriving DecidableEq, Repr

/-- Struct sub-catalog `StructFunction`; variants from the dispatch in
`mod.rs` lines 311-314. -/
inductive StructFunction
| FieldByIndex (index : Nat)
| FieldByName (nm : String)
deriving DecidableEq, Repr

/-- Modelled from the spec: the NaN sub-catalog (`nan.rs` is not under
`src/`); the embedded code treats its values opaquely (display "nan",
handle delegated), so the payload is a tag. -/
inductive NanFunction
| mk (tag : Nat)
deriving DecidableEq, Repr

/-- Modelled from the spec: the trigonometric sub-catalog
(`trigonometry.rs` is not under `src/`); the embedded code treats its
values opaquely, so the payload is a tag. -/
inductive TrigonometricFunction
| mk (tag : Nat)
deriving DecidableEq, Repr

/-- The function catalog `FunctionExpr` of `mod.rs` lines 55-112, with every
feature-gated variant present; which variants exist under a given feature
configuration is captured separately by `enabledVariant`. -/
inductive FunctionExpr
| NullCount
| Pow
| Hash (k0 : Nat) (k1 : Nat) (k2 : Nat) (k3 : Nat)
| IsIn
| ArgWhere
| SearchSorted
| StringExpr (s : StringFunction)
| TemporalExpr (t : TemporalFunction)
| DateOffset (d : Duration)
| Trigonometry (t : TrigonometricFunction)
| Sign
| FillNull (super_type : DataType)
| ListContains
| RollingSkew (window_size : Nat) (bias : Bool)
| ShiftAndFill (periods : Int)
| Nan (n : NanFunction)
| Clip (min : Option AnyValue) (max : Option AnyValue)
| ListExpr (l : ListFunction)
| StructExpr (s : StructFunction)
| TopK (k : Nat) (reverse : Bool)
| Shift (periods : Int)
| Reverse
| IsNull
| IsNotNull
| Not
| IsUnique
| IsDuplicated
deriving DecidableEq, Repr

/-- A build-time feature configuration: one Boolean per cargo feature that
gates a variant of `FunctionExpr` or of a sub-catalog (`mod.rs` cfg
attributes). -/
structure Features where
  rowHash : Bool
  isIn : Bool
  argWhere : Bool
  searchSorted : Bool
  strings : Bool
  temporal : Bool
  dateOffset : Bool
  trigonometry : Bool
  sign : Bool
  rollingWindow : Bool
  moment : Bool
  roundSeries : Bool
  list : Bool
  dtypeStruct : Bool
  topK : Bool
  stringJustify : Bool
  concatStr : Bool
  regex : Bool
deriving DecidableEq, Repr

/-- The configuration with every feature enabled. -/
def Features.allOn : Features :=
  ⟨true, true, true, true, true, true, true, true, true, true, true, true,
   true, true, true, true, true, true⟩

/-- Whether a `StringFunction` variant exists under a feature configuration:
the cfg attributes on the variants of the string sub-catalog, read off the
gates of the `From<StringFunction>` dispatch in `mod.rs` lines 332-380. -/
def stringFnEnabled (fs : Features) : StringFunction → Bool
| .Zfill _ => fs.stringJustify
| .LJust _ _ => fs.stringJustify
| .RJust _ _ => fs.stringJustify
| .Strptime _ => fs.temporal
| .ConcatVertical _ => fs.concatStr
| .ConcatHorizontal _ => fs.concatStr
| .Replace _ _ => fs.regex
| _ => true

/-- Whether a `FunctionExpr` variant exists under a feature configuration:
the cfg attributes on the enum variants, `mod.rs` lines 55-112. -/
def enabledVariant (fs : Features) : FunctionExpr → Bool
| .NullCount => true
| .Pow => true
| .Hash _ _ _ _ => fs.rowHash
| .IsIn => fs.isIn
| .ArgWhere => fs.argWhere
| .SearchSorted => fs.searchSorted
| .StringExpr s => fs.strings && stringFnEnabled fs s
| .TemporalExpr _ => fs.temporal
| .DateOffset _ => fs.dateOffset
| .Trigonometry _ => fs.trigonometry
| .Sign => fs.sign
| .FillNull _ => true
| .ListContains => fs.isIn
| .RollingSkew _ _ => fs.rollingWindow && fs.moment
| .ShiftAndFill _ => true
| .Nan _ => true
| .Clip _ _ => fs.roundSeries
| .ListExpr _ => fs.list
| .StructExpr _ => fs.dtypeStruct
| .TopK _ _ => fs.topK
| .Shift _ => true
| .Reverse => true
| .IsNull => true
| .IsNotNull => true
| .Not => true
| .IsUnique => true
| .IsDuplicated => true

/-- Modelled from the spec: the `Display` impl of `TemporalFunction` lives in
`datetime.rs`, which is not under `src/`; per spec section 4.1 each operation
renders a stable per-operation name and parameterized variants share one name
regardless of parameter value. -/
def TemporalFunction.displayName : TemporalFunction → String
| .Year => "year"
| .IsoYear => "iso_year"
| .Month => "month"
| .Quarter => "quarter"
| .Week => "week"
| .WeekDay => "weekday"
| .Day => "day"
| .OrdinalDay => "ordinal_day"
| .Hour => "hour"
| .Minute => "minute"
| .Second => "second"
| .NanoSecond => "nanosecond"
| .TimeStamp _ => "timestamp"

/-- Modelled from the spec: the `Display` impl of `StringFunction` lives in
`strings.rs`, which is not under `src/`; per spec section 4.1 each operation
renders a stable per-operation name independent of its parameter values. -/
def StringFunction.displayName : StringFunction → String
| .Contains _ _ => "str.contains"
| .EndsWith _ => "str.ends_with"
| .StartsWith _ => "str.starts_with"
| .Extract _ _ => "str.extract"
| .ExtractAll _ => "str.extract_all"
| .CountMatch _ => "str.count_match"
| .Zfill _ => "str.zfill"
| .LJust _ _ => "str.ljust"
| .RJust _ _ => "str.rjust"
| .Strptime _ => "str.strptime"
| .ConcatVertical _ => "str.concat_vertical"
| .ConcatHorizontal _ => "str.concat_horizontal"
| .Replace _ _ => "str.replace"
| .Uppercase => "str.uppercase"
| .Lowercase => "str.lowercase"

/-- Modelled from the spec: display of the list sub-catalog is delegated to
`list.rs`, not under `src/`; a stable per-operation name. -/
def ListFunction.displayName : ListFunction → String
| .Concat => "concat"

/-- Modelled from the spec: display of the struct sub-catalog is delegated to
`struct_.rs`, not under `src/`; stable per-operation names independent of the
parameter values. -/
def StructFunction.displayName : StructFunction → String
| .FieldByIndex _ => "struct.field_by_index"
| .FieldByName _ => "struct.field_by_name"

/-- Modelled from the spec: display of the trigonometric sub-catalog is
delegated to `trigonometry.rs`, not under `src/`. -/
def TrigonometricFunction.displayName : TrigonometricFunction → String
| .mk _ => "trigonometry"

/-- The `Display` impl of `FunctionExpr`, `mod.rs` lines 114-168. `none`
models the panicking `unreachable!()` branch of the `Clip` arm; every other
arm writes a string. Sub-catalog arms delegate to the sub-catalog's own
display. -/
def FunctionExpr.displayName : FunctionExpr → Option String
| .NullCount => some "null_count"
| .Pow => some "pow"
| .Hash _ _ _ _ => some "hash"
| .IsIn => some "is_in"
| .ArgWhere => some "arg_where"
| .SearchSorted => some "search_sorted"
| .StringExpr s => some s.displayName
| .TemporalExpr t => some t.displayName
| .DateOffset _ => some "dt.offset_by"
| .Trigonometry t => some t.displayName
| .Sign => some "sign"
| .FillNull _ => some "fill_null"
| .ListContains => some "arr.contains"
| .RollingSkew _ _ => some "rolling_skew"
| .ShiftAndFill _ => some "shift_and_fill"
| .Nan _ => some "nan"
| .Clip mn mx =>
    match mn, mx with
    | some _, some _ => some "clip"
    | none, some _ => some "clip_max"
    | some _, none => some "clip_min"
    | none, none => none
| .ListExpr l => some l.displayName
| .StructExpr s => some s.displayName
| .TopK _ _ => some "top_k"
| .Shift _ => some "shift"
| .Reverse => some "reverse"
| .Not => some "is_not"
| .IsNull => some "is_null"
| .IsNotNull => some "is_not_null"
| .IsUnique => some "is_unique"
| .IsDuplicated => some "is_duplicated"

/-- An invokable kernel handle: the call side of
`SpecialEq<Arc<dyn SeriesUdf>>`. It takes the ordered input columns and
returns `none` when the wrapper performs an out-of-bounds slice access
(a panic), otherwise the kernel's `PolarsResult<Series>`. -/
def KernelImpl : Type := List Series → Option (Except PolarsError Series)

/-- The `wrap!` macro of `mod.rs` lines 170-174: the wrapped function already
takes the whole slice, so the wrapper itself performs no index access. -/
def wrapUdf (f : List Series → Except PolarsError Series) : KernelImpl :=
  fun ss => some (f ss)

/-- The `map!` macro of `mod.rs` lines 214-232: reads `&s[0]` before calling
the kernel, so an empty slice is an out-of-bounds access (`none`). -/
def mapWrap (f : Series → Except PolarsError Series) : KernelImpl :=
  fun ss =>
    match ss with
    | [] => none
    | s :: _ => some (f s)

/-- The `map_owned!` macro of `mod.rs` lines 192-210: takes `s[0]` by value
(`std::mem::take(&mut s[0])`) before calling the kernel, so an empty slice is
an out-of-bounds access (`none`). -/
def mapOwnedWrap (f : Series → Except PolarsError Series) : KernelImpl :=
  fun ss =>
    match ss with
    | [] => none
    | s :: _ => some (f s)

/-- The `map_as_slice!` macro of `mod.rs` lines 179-187: passes the whole
slice to the kernel without any index access of its own. -/
def mapAsSliceWrap (f : List Series → Except PolarsError Series) : KernelImpl :=
  fun ss => some (f ss)

/-- The inline `NullCount` closure of `mod.rs` lines 239-243: reads `&s[0]`
(out of bounds on an empty slice) and builds a one-element count column;
the count column's element type is the index type `IdxSize` (`u32`). -/
def nullCountKernel : KernelImpl :=
  fun ss =>
    match ss with
    | [] => none
    | s :: _ => some (Except.ok ⟨s.name, DataType.UInt32⟩)

/-- The external computation kernels that the dispatch of `mod.rs` wraps:
one field per function referenced from a module that is not under `src/`
(spec section 1 treats them as external collaborators, specified only at
their interface). Each field's arity and argument order follow the call
site in `mod.rs`. -/
structure ExternalKernels where
  pow : List Series → Except PolarsError Series
  row_hash : Series → Nat → Nat → Nat → Nat → Except PolarsError Series
  is_in : List Series → Except PolarsError Series
  arg_where : List Series → Except PolarsError Series
  search_sorted_impl : List Series → Except PolarsError Series
  date_offset : Series → Duration → Except PolarsError Series
  apply_trigonometric_function :
    Series → TrigonometricFunction → Except PolarsError Series
  sign : Series → Except PolarsError Series
  fill_null : List Series → DataType → Except PolarsError Series
  list_contains : List Series → Except PolarsError Series
  rolling_skew : Series → Nat → Bool → Except PolarsError Series
  shift_and_fill : List Series → Int → Except PolarsError Series
  clip : Series → Option AnyValue → Option AnyValue → Except PolarsError Series
  list_concat : List Series → Except PolarsError Series
  get_by_index : Series → Nat → Except PolarsError Series
  get_by_name : Series → String → Except PolarsError Series
  top_k : Series → Nat → Bool → Except PolarsError Series
  shift : Series → Int → Except PolarsError Series
  reverse : Series → Except PolarsError Series
  is_null : Series → Except PolarsError Series
  is_not_null : Series → Except PolarsError Series
  is_not : Series → Except PolarsError Series
  is_unique : Series → Except PolarsError Series
  is_duplicated : Series → Except PolarsError Series
  nanHandle : NanFunction → KernelImpl
  str_contains : Series → String → Bool → Except PolarsError Series
  ends_with : Series → String → Except PolarsError Series
  starts_with : Series → String → Except PolarsError Series
  extract : Series → String → Nat → Except PolarsError Series
  extract_all : Series → String → Except PolarsError Series
  count_match : Series → String → Except PolarsError Series
  zfill : Series → Nat → Except PolarsError Series
  ljust : Series → Nat → Char → Except PolarsError Series
  rjust : Series → Nat → Char → Except PolarsError Series
  strptime : Series → StrpTimeOptions → Except PolarsError Series
  str_concat : Series → String → Except PolarsError Series
  concat_hor : List Series → String → Except PolarsError Series
  str_replace : List Series → Bool → Bool → Except PolarsError Series
  uppercase : Series → Except PolarsError Series
  lowercase : Series → Except PolarsError Series
  dt_year : Series → Except PolarsError Series
  dt_iso_year : Series → Except PolarsError Series
  dt_month : Series → Except PolarsError Series
  dt_quarter : Series → Except PolarsError Series
  dt_week : Series → Except PolarsError Series
  dt_weekday : Series → Except PolarsError Series
  dt_day : Series → Except PolarsError Series
  dt_ordinal_day : Series → Except PolarsError Series
  dt_hour : Series → Except PolarsError Series
  dt_minute : Series → Except PolarsError Series
  dt_second : Series → Except PolarsError Series
  dt_nanosecond : Series → Except PolarsError Series
  dt_timestamp : Series → TimeUnit → Except PolarsError Series

/-- A concrete assignment of external kernels where every kernel ignores its
input and returns a fixed Boolean column; used to instantiate theorems that
hold for arbitrary external kernels. -/
def ExternalKernels.trivialSet : ExternalKernels where
  pow := fun _ => Except.ok ⟨"", DataType.Boolean⟩
  row_hash := fun _ _ _ _ _ => Except.ok ⟨"", DataType.Boolean⟩
  is_in := fun _ => Except.ok ⟨"", DataType.Boolean⟩
  arg_where := fun _ => Except.ok ⟨"", DataType.Boolean⟩
  search_sorted_impl := fun _ => Except.ok ⟨"", DataType.Boolean⟩
  date_offset := fun _ _ => Except.ok ⟨"", DataType.Boolean⟩
  apply_trigonometric_function := fun _ _ => Except.ok ⟨"", DataType.Boolean⟩
  sign := fun _ => Except.ok ⟨"", DataType.Boolean⟩
  fill_null := fun _ _ => Except.ok ⟨"", DataType.Boolean⟩
  list_contains := fun _ => Except.ok ⟨"", DataType.Boolean⟩
  rolling_skew := fun _ _ _ => Except.ok ⟨"", DataType.Boolean⟩
  shift_and_fill := fun _ _ => Except.ok ⟨"", DataType.Boolean⟩
  clip := fun _ _ _ => Except.ok ⟨"", DataType.Boolean⟩
  list_concat := fun _ => Except.ok ⟨"", DataType.Boolean⟩
  get_by_index := fun _ _ => Except.ok ⟨"", DataType.Boolean⟩
  get_by_name := fun _ _ => Except.ok ⟨"", DataType.Boolean⟩
  top_k := fun _ _ _ => Except.ok ⟨"", DataType.Boolean⟩
  shift := fun _ _ => Except.ok ⟨"", DataType.Boolean⟩
  reverse := fun _ => Except.ok ⟨"", DataType.Boolean⟩
  is_null := fun _ => Except.ok ⟨"", DataType.Boolean⟩
  is_not_null := fun _ => Except.ok ⟨"", DataType.Boolean⟩
  is_not := fun _ => Except.ok ⟨"", DataType.Boolean⟩
  is_unique := fun _ => Except.ok ⟨"", DataType.Boolean⟩
  is_duplicated := fun _ => Except.ok ⟨"", DataType.Boolean⟩
  nanHandle := fun _ _ => some (Except.ok ⟨"", DataType.Boolean⟩)
  str_contains := fun _ _ _ => Except.ok ⟨"", DataType.Boolean⟩
  ends_with := fun _ _ => Except.ok ⟨"", DataType.Boolean⟩
  starts_with := fun _ _ => Except.ok ⟨"", DataType.Boolean⟩
  extract := fun _ _ _ => Except.ok ⟨"", DataType.Boolean⟩
  extract_all := fun _ _ => Except.ok ⟨"", DataType.Boolean⟩
  count_match := fun _ _ => Except.ok ⟨"", DataType.Boolean⟩
  zfill := fun _ _ => Except.ok ⟨"", DataType.Boolean⟩
  ljust := fun _ _ _ => Except.ok ⟨"", DataType.Boolean⟩
  rjust := fun _ _ _ => Except.ok ⟨"", DataType.Boolean⟩
  strptime := fun _ _ => Except.ok ⟨"", DataType.Boolean⟩
  str_concat := fun _ _ => Except.ok ⟨"", DataType.Boolean⟩
  concat_hor := fun _ _ => Except.ok ⟨"", DataType.Boolean⟩
  str_replace := fun _ _ _ => Except.ok ⟨"", DataType.Boolean⟩
  uppercase := fun _ => Except.ok ⟨"", DataType.Boolean⟩
  lowercase := fun _ => Except.ok ⟨"", DataType.Boolean⟩
  dt_year := fun _ => Except.ok ⟨"", DataType.Boolean⟩
  dt_iso_year := fun _ => Except.ok ⟨"", DataType.Boolean⟩
  dt_month := fun _ => Except.ok ⟨"", DataType.Boolean⟩
  dt_quarter := fun _ => Except.ok ⟨"", DataType.Boolean⟩
  dt_week := fun _ => Except.ok ⟨"", DataType.Boolean⟩
  dt_weekday := fun _ => Except.ok ⟨"", DataType.Boolean⟩
  dt_day := fun _ => Except.ok ⟨"", DataType.Boolean⟩
  dt_ordinal_day := fun _ => Except.ok ⟨"", DataType.Boolean⟩
  dt_hour := fun _ => Except.ok ⟨"", DataType.Boolean⟩
  dt_minute := fun _ => Except.ok ⟨"", DataType.Boolean⟩
  dt_second := fun _ => Except.ok ⟨"", DataType.Boolean⟩
  dt_nanosecond := fun _ => Except.ok ⟨"", DataType.Boolean⟩
  dt_timestamp := fun _ _ => Except.ok ⟨"", DataType.Boolean⟩

/-- The `From<TemporalFunction>` dispatch of `mod.rs` lines 383-402: every
variant is wrapped with `map!`; no arm is feature-gated. -/
def temporalFnToHandle (ext : ExternalKernels) : TemporalFunction → KernelImpl
| .Year => mapWrap ext.dt_year
| .IsoYear => mapWrap ext.dt_iso_year
| .Month => mapWrap ext.dt_month
| .Quarter => mapWrap ext.dt_quarter
| .Week => mapWrap ext.dt_week
| .WeekDay => mapWrap ext.dt_weekday
| .Day => mapWrap ext.dt_day
| .OrdinalDay => mapWrap ext.dt_ordinal_day
| .Hour => mapWrap ext.dt_hour
| .Minute => mapWrap ext.dt_minute
| .Second => mapWrap ext.dt_second
| .NanoSecond => mapWrap ext.dt_nanosecond
| .TimeStamp tu => mapWrap (fun s => ext.dt_timestamp s tu)

/-- The `From<StringFunction>` dispatch of `mod.rs` lines 332-380, with the
same feature gates as the sub-catalog's variants; `none` models a variant
absent under the configuration. -/
def stringFnToHandle (fs : Features) (ext : ExternalKernels) :
    StringFunction → Option KernelImpl
| .Contains pat literal =>
    some (mapWrap (fun s => ext.str_contains s pat literal))
| .EndsWith sub => some (mapWrap (fun s => ext.ends_with s sub))
| .StartsWith sub => some (mapWrap (fun s => ext.starts_with s sub))
| .Extract pat group_index =>
    some (mapWrap (fun s => ext.extract s pat group_index))
| .ExtractAll pat => some (mapWrap (fun s => ext.extract_all s pat))
| .CountMatch pat => some (mapWrap (fun s => ext.count_match s pat))
| .Zfill alignment =>
    if fs.stringJustify then some (mapWrap (fun s => ext.zfill s alignment))
    else none
| .LJust width fillchar =>
    if fs.stringJustify then
      some (mapWrap (fun s => ext.ljust s width fillchar))
    else none
| .RJust width fillchar =>
    if fs.stringJustify then
      some (mapWrap (fun s => ext.rjust s width fillchar))
    else none
| .Strptime options =>
    if fs.temporal then some (mapWrap (fun s => ext.strptime s options))
    else none
| .ConcatVertical delimiter =>
    if fs.concatStr then some (mapWrap (fun s => ext.str_concat s delimiter))
    else none
| .ConcatHorizontal delimiter =>
    if fs.concatStr then
      some (mapAsSliceWrap (fun ss => ext.concat_hor ss delimiter))
    else none
| .Replace all literal =>
    if fs.regex then
      some (mapAsSliceWrap (fun ss => ext.str_replace ss literal all))
    else none
| .Uppercase => some (mapWrap ext.uppercase)
| .Lowercase => some (mapWrap ext.lowercase)

/-- The catalog-to-handle dispatch, the
`From<FunctionExpr> for SpecialEq<Arc<dyn SeriesUdf>>` impl of `mod.rs`
lines 234-329, arm by arm, with each arm's feature gate; `none` models a
variant absent under the configuration (its arm does not exist). -/
def toKernelHandle (fs : Features) (ext : ExternalKernels) :
    FunctionExpr → Option KernelImpl
| .NullCount => some nullCountKernel
| .Pow => some (wrapUdf ext.pow)
| .Hash k0 k1 k2 k3 =>
    if fs.rowHash then some (mapWrap (fun s => ext.row_hash s k0 k1 k2 k3))
    else none
| .IsIn => if fs.isIn then some (wrapUdf ext.is_in) else none
| .ArgWhere => if fs.argWhere then some (wrapUdf ext.arg_where) else none
| .SearchSorted =>
    if fs.searchSorted then some (wrapUdf ext.search_sorted_impl) else none
| .StringExpr s => if fs.strings then stringFnToHandle fs ext s else none
| .TemporalExpr t =>
    if fs.temporal then some (temporalFnToHandle ext t) else none
| .DateOffset d =>
    if fs.dateOffset then
      some (mapOwnedWrap (fun s => ext.date_offset s d))
    else none
| .Trigonometry t =>
    if fs.trigonometry then
      some (mapWrap (fun s => ext.apply_trigonometric_function s t))
    else none
| .Sign => if fs.sign then some (mapWrap ext.sign) else none
| .FillNull super_type =>
    some (mapAsSliceWrap (fun ss => ext.fill_null ss super_type))
| .ListContains => if fs.isIn then some (wrapUdf ext.list_contains) else none
| .RollingSkew window_size bias =>
    if fs.rollingWindow && fs.moment then
      some (mapWrap (fun s => ext.rolling_skew s window_size bias))
    else none
| .ShiftAndFill periods =>
    some (mapAsSliceWrap (fun ss => ext.shift_and_fill ss periods))
| .Nan n => some (ext.nanHandle n)
| .Clip mn mx =>
    if fs.roundSeries then some (mapOwnedWrap (fun s => ext.clip s mn mx))
    else none
| .ListExpr l =>
    if fs.list then
      match l with
      | .Concat => some (wrapUdf ext.list_concat)
    else none
| .StructExpr s =>
    if fs.dtypeStruct then
      match s with
      | .FieldByIndex index => some (mapWrap (fun x => ext.get_by_index x index))
      | .FieldByName nm => some (mapWrap (fun x => ext.get_by_name x nm))
    else none
| .TopK k reverse =>
    if fs.topK then some (mapWrap (fun s => ext.top_k s k reverse)) else none
| .Shift periods => some (mapWrap (fun s => ext.shift s periods))
| .Reverse => some (mapWrap ext.reverse)
| .IsNull => some (mapWrap ext.is_null)
| .IsNotNull => some (mapWrap ext.is_not_null)
| .Not => some (mapWrap ext.is_not)
| .IsUnique => some (mapWrap ext.is_unique)
| .IsDuplicated => some (mapWrap ext.is_duplicated)

/-- The output-type rule `GetOutput` as used by `dt.rs`: a fixed type
(`GetOutput::from_type`), the input's own type (`GetOutput::same_type`), or
a mapping of the input type (`GetOutput::map_dtype`); the mapping returns
`none` on the types where the source closure panics. -/
inductive GetOutput
| fromType (dt : DataType)
| sameType
| mapDtype (f : DataType → Option DataType)

/-- Evaluation of an output-type rule on the primary input's type
(spec section 4.2, `resolve_output_type`); `none` models a panic of a
`map_dtype` closure. -/
def GetOutput.resolve : GetOutput → DataType → Option DataType
| .fromType t, _ => some t
| .sameType, d => some d
| .mapDtype f, d => f d

/-- The `map_dtype` closure of `cast_time_unit`, `dt.rs` lines 37-41:
`Duration(_)` maps to `Duration(tu)`, `Datetime(_, tz)` maps to
`Datetime(tu, tz.clone())`, and every other type hits the
`panic!("expected duration or datetime")` branch, modelled as `none`. -/
def castTimeUnitDtypeMap (tu : TimeUnit) : DataType → Option DataType
| .Duration _ => some (.Duration tu)
| .Datetime _ tz => some (.Datetime tu tz)
| _ => none

/-- Whether a type carries a time unit: exactly the `Datetime`/`Duration`
domain of the time-unit kernels of `dt.rs` (with the `dtype-duration`
feature on). -/
def DataType.hasTimeUnit : DataType → Bool
| .Datetime _ _ => true
| .Duration _ => true
| _ => false

/-- Whether a type is `Datetime`: the domain of the `with_time_zone` kernel
of `dt.rs`. -/
def DataType.isDatetime : DataType → Bool
| .Datetime _ _ => true
| _ => false

/-- The runtime kernel closure of `cast_time_unit`, `dt.rs` lines 23-36: a
dtype match on the input column; on `Datetime`/`Duration` the external
`ChunkedArray::cast_time_unit` is applied, on any other dtype a
`ComputeError` naming the dtype is returned. The result dtype of the
external cast is modelled from the spec: the unit is replaced by `tu` and
the zone is preserved (spec section 4.3, time-unit/zone change). -/
def castTimeUnitKernel (tu : TimeUnit) (s : Series) :
    Except PolarsError Series :=
  match s.dtype with
  | .Datetime _ tz => .ok ⟨s.name, .Datetime tu tz⟩
  | .Duration _ => .ok ⟨s.name, .Duration tu⟩
  | dt =>
      .error (.ComputeError
        ("Series of dtype " ++ dt.fmtDebug ++ " has got no time unit"))

/-- The runtime kernel closure of `with_time_unit`, `dt.rs` lines 48-63: on
`Datetime`/`Duration` the external `set_time_unit` replaces the reported
unit (values untouched); any other dtype returns a `ComputeError` naming the
dtype. The result dtype of `set_time_unit` is modelled from the spec: the
reported unit becomes `tu`, the zone is untouched. -/
def withTimeUnitKernel (tu : TimeUnit) (s : Series) :
    Except PolarsError Series :=
  match s.dtype with
  | .Datetime _ tz => .ok ⟨s.name, .Datetime tu tz⟩
  | .Duration _ => .ok ⟨s.name, .Duration tu⟩
  | dt =>
      .error (.ComputeError
        ("Series of dtype " ++ dt.fmtDebug ++ " has got no time unit"))

/-- The runtime kernel closure of `with_time_zone`, `dt.rs` lines 71-80: only
`Datetime` is accepted; the external `set_time_zone` replaces the zone
(modelled from the spec: unit untouched, zone becomes `tz`); any other
dtype — `Duration` included — returns a `ComputeError` naming the dtype. -/
def withTimeZoneKernel (tz : Option TimeZone) (s : Series) :
    Except PolarsError Series :=
  match s.dtype with
  | .Datetime tu _ => .ok ⟨s.name, .Datetime tu tz⟩
  | dt =>
      .error (.ComputeError
        ("Series of dtype " ++ dt.fmtDebug ++ " has got no time zone"))

/-- Modelled from the spec: the external `Series::strftime` kernel called by
`dt.rs` line 14 (not under `src/`); it renders `Date`/`Datetime` columns as
strings, producing a `Utf8` column, and fails with a `ComputeError` on other
types. -/
def strftimeKernel (fmt : String) (s : Series) : Except PolarsError Series :=
  match s.dtype with
  | .Date => .ok ⟨s.name, .Utf8⟩
  | .Datetime _ _ => .ok ⟨s.name, .Utf8⟩
  | dt =>
      .error (.ComputeError
        ("strftime with format " ++ fmt ++ " not supported for dtype "
          ++ dt.fmtDebug))

/-- Expression nodes, restricted to what the temporal namespace adapter
builds. Modelled from the spec (section 4.4; `Expr` itself is not under
`src/`): `function` is the generic apply-function node carrying a catalog
entry (built by `map_private`), `anonymousMap` is the node carrying an
anonymous kernel closure together with its output-type rule and an optional
display name (built by `Expr::map` / `with_fmt`). -/
inductive Expr
| column (nm : String)
| function (input : Expr) (fn : FunctionExpr)
| anonymousMap (input : Expr) (kernel : Series → Except PolarsError Series)
    (output : GetOutput) (fmt : Option String)

/-- Modelled from the spec: `Expr::map`, wrapping the receiver in an
anonymous apply-function node with the given kernel and output-type rule. -/
def Expr.map (e : Expr) (kernel : Series → Except PolarsError Series)
    (output : GetOutput) : Expr :=
  .anonymousMap e kernel output none

/-- Modelled from the spec: `Expr::with_fmt`, attaching a display name to an
anonymous apply-function node. -/
def Expr.withFmt : Expr → String → Expr
| .anonymousMap input kernel output _, nm =>
    .anonymousMap input kernel output (some nm)
| e, _ => e

/-- Modelled from the spec: `Expr::map_private`, wrapping the receiver in
the generic apply-function node carrying a catalog entry. -/
def Expr.mapPrivate (e : Expr) (fn : FunctionExpr) : Expr :=
  .function e fn

/-- Whether the top node of an expression is the generic apply-function node
carrying a catalog `FunctionExpr` (as opposed to an anonymous closure
node). -/
def Expr.isCatalogApply : Expr → Bool
| .function _ _ => true
| _ => false

/-- The temporal namespace adapter, `DateLikeNameSpace` of `dt.rs` line 7:
a wrapper around the receiver expression. -/
structure DateLikeNameSpace where
  expr : Expr

namespace DateLikeNameSpace

/-- The `strftime` builder, `dt.rs` lines 12-18. -/
def strftime (ns : DateLikeNameSpace) (fmt : String) : Expr :=
  (ns.expr.map (strftimeKernel fmt)
    (GetOutput.fromType DataType.Utf8)).withFmt "strftime"

/-- The `cast_time_unit` builder, `dt.rs` lines 21-43. -/
def cast_time_unit (ns : DateLikeNameSpace) (tu : TimeUnit) : Expr :=
  ns.expr.map (castTimeUnitKernel tu)
    (GetOutput.mapDtype (castTimeUnitDtypeMap tu))

/-- The `with_time_unit` builder, `dt.rs` lines 46-66. -/
def with_time_unit (ns : DateLikeNameSpace) (tu : TimeUnit) : Expr :=
  ns.expr.map (withTimeUnitKernel tu) GetOutput.sameType

/-- The `with_time_zone` builder, `dt.rs` lines 69-83. -/
def with_time_zone (ns : DateLikeNameSpace) (tz : Option TimeZone) : Expr :=
  ns.expr.map (withTimeZoneKernel tz) GetOutput.sameType

/-- The `year` builder, `dt.rs` lines 86-89. -/
def year (ns : DateLikeNameSpace) : Expr :=
  ns.expr.mapPrivate (.TemporalExpr .Year)

/-- The `iso_year` builder, `dt.rs` lines 93-96. -/
def iso_year (ns : DateLikeNameSpace) : Expr :=
  ns.expr.mapPrivate (.TemporalExpr .IsoYear)

/-- The `month` builder, `dt.rs` lines 99-102. -/
def month (ns : DateLikeNameSpace) : Expr :=
  ns.expr.mapPrivate (.TemporalExpr .Month)

/-- The `quarter` builder, `dt.rs` lines 106-109. -/
def quarter (ns : DateLikeNameSpace) : Expr :=
  ns.expr.mapPrivate (.TemporalExpr .Quarter)

/-- The `week` builder, `dt.rs` lines 116-119. -/
def week (ns : DateLikeNameSpace) : Expr :=
  ns.expr.mapPrivate (.TemporalExpr .Week)

/-- The `weekday` builder, `dt.rs` lines 125-128. -/
def weekday (ns : DateLikeNameSpace) : Expr :=
  ns.expr.mapPrivate (.TemporalExpr .WeekDay)

/-- The `day` builder, `dt.rs` lines 131-134. -/
def day (ns : DateLikeNameSpace) : Expr :=
  ns.expr.mapPrivate (.TemporalExpr .Day)

/-- The `ordinal_day` builder, `dt.rs` lines 136-139. -/
def ordinal_day (ns : DateLikeNameSpace) : Expr :=
  ns.expr.mapPrivate (.TemporalExpr .OrdinalDay)

/-- The `hour` builder, `dt.rs` lines 141-144. -/
def hour (ns : DateLikeNameSpace) : Expr :=
  ns.expr.mapPrivate (.TemporalExpr .Hour)

/-- The `minute` builder, `dt.rs` lines 146-149. -/
def minute (ns : DateLikeNameSpace) : Expr :=
  ns.expr.mapPrivate (.TemporalExpr .Minute)

/-- The `second` builder, `dt.rs` lines 152-155. -/
def second (ns : DateLikeNameSpace) : Expr :=
  ns.expr.mapPrivate (.TemporalExpr .Second)

/-- The `nanosecond` builder, `dt.rs` lines 157-160. -/
def nanosecond (ns : DateLikeNameSpace) : Expr :=
  ns.expr.mapPrivate (.TemporalExpr .NanoSecond)

/-- The `timestamp` builder, `dt.rs` lines 162-165. -/
def timestamp (ns : DateLikeNameSpace) (tu : TimeUnit) : Expr :=
  ns.expr.mapPrivate (.TemporalExpr (.TimeStamp tu))

/-- The `offset_by` builder, `dt.rs` lines 170-172. -/
def offset_by (ns : DateLikeNameSpace) (by_ : Duration) : Expr :=
  ns.expr.mapPrivate (.DateOffset by_)

end DateLikeNameSpace

lemma isSome_ite_some_none {α : Type} (b : Bool) (x : α) :
    (if b then some x else none).isSome = b := by
  cases b <;> simp

lemma stringFnToHandle_isSome (fs : Features) (ext : ExternalKernels)
    (s : StringFunction) :
    (stringFnToHandle fs ext s).isSome = stringFnEnabled fs s := by
  cases s <;> simp [stringFnToHandle, stringFnEnabled, isSome_ite_some_none]

/-- C1: the catalog-to-handle conversion is total over the enabled catalog —
for every feature configuration, every external-kernel assignment and every
`FunctionExpr` value, the dispatch produces a handle exactly when the variant
is enabled under the configuration; in particular no enabled variant is left
without a dispatch arm, and being a function, the dispatch produces exactly
one handle per entry. -/
theorem catalog_to_handle_total (fs : Features) (ext : ExternalKernels)
    (fe : FunctionExpr) :
    (toKernelHandle fs ext fe).isSome = enabledVariant fs fe := by
  cases fe <;>
    simp [toKernelHandle, enabledVariant, isSome_ite_some_none,
      stringFnToHandle_isSome]
  case StringExpr s =>
    cases h : fs.strings <;> simp [h, stringFnToHandle_isSome]
  case RollingSkew w bi =>
    cases fs.rollingWindow <;> cases fs.moment <;> simp
  case StructExpr s => cases fs.dtypeStruct <;> cases s <;> simp

/-- C2 counterexample: the `with_time_unit` builder attaches the
`SameAsInput` rule (`GetOutput::same_type()`), yet its kernel changes the
reported unit; on a `Datetime(Nanoseconds, None)` column with target unit
`Milliseconds`, the rule predicts `Datetime(Nanoseconds, None)` while the
kernel returns a `Datetime(Milliseconds, None)` column — the prediction does
not equal the actual output type even though the input lies in the rule's
valid domain. -/
theorem with_time_unit_prediction_mismatch :
    DateLikeNameSpace.with_time_unit ⟨Expr.column "a"⟩ TimeUnit.Milliseconds
      = Expr.anonymousMap (Expr.column "a")
          (withTimeUnitKernel TimeUnit.Milliseconds) GetOutput.sameType none
    ∧ GetOutput.resolve GetOutput.sameType
        (DataType.Datetime TimeUnit.Nanoseconds none)
      = some (DataType.Datetime TimeUnit.Nanoseconds none)
    ∧ withTimeUnitKernel TimeUnit.Milliseconds
        ⟨"a", DataType.Datetime TimeUnit.Nanoseconds none⟩
      = Except.ok ⟨"a", DataType.Datetime TimeUnit.Milliseconds none⟩
    ∧ DataType.Datetime TimeUnit.Milliseconds none
        ≠ DataType.Datetime TimeUnit.Nanoseconds none :=
  ⟨rfl, rfl, rfl, by decide⟩

/-- C2 (amended): for `cast_time_unit` (MappedFromInput rule) and `strftime`
(Fixed rule) the kernel's actual output type equals the rule's prediction on
every input in the rule's domain; for `with_time_unit` and `with_time_zone`
(SameAsInput rule) the kernel's actual output type carries the new unit/zone,
so it equals the prediction exactly when the requested unit (resp. zone)
already equals the input's. -/
theorem output_rules_vs_kernels (tu u : TimeUnit) (tz tz' : Option TimeZone)
    (nm fmt : String) :
    (castTimeUnitKernel tu ⟨nm, .Datetime u tz⟩
        = .ok ⟨nm, .Datetime tu tz⟩
      ∧ GetOutput.resolve (.mapDtype (castTimeUnitDtypeMap tu))
          (.Datetime u tz) = some (.Datetime tu tz))
    ∧ (castTimeUnitKernel tu ⟨nm, .Duration u⟩ = .ok ⟨nm, .Duration tu⟩
      ∧ GetOutput.resolve (.mapDtype (castTimeUnitDtypeMap tu)) (.Duration u)
          = some (.Duration tu))
    ∧ (strftimeKernel fmt ⟨nm, .Date⟩ = .ok ⟨nm, .Utf8⟩
      ∧ GetOutput.resolve (.fromType .Utf8) .Date = some .Utf8)
    ∧ (strftimeKernel fmt ⟨nm, .Datetime u tz⟩ = .ok ⟨nm, .Utf8⟩
      ∧ GetOutput.resolve (.fromType .Utf8) (.Datetime u tz) = some .Utf8)
    ∧ (withTimeUnitKernel tu ⟨nm, .Datetime u tz⟩
        = .ok ⟨nm, .Datetime tu tz⟩
      ∧ (GetOutput.resolve .sameType (.Datetime u tz)
          = some (.Datetime tu tz) ↔ u = tu))
    ∧ (withTimeUnitKernel tu ⟨nm, .Duration u⟩ = .ok ⟨nm, .Duration tu⟩
      ∧ (GetOutput.resolve .sameType (.Duration u) = some (.Duration tu)
          ↔ u = tu))
    ∧ (withTimeZoneKernel tz' ⟨nm, .Datetime u tz⟩
        = .ok ⟨nm, .Datetime u tz'⟩
      ∧ (GetOutput.resolve .sameType (.Datetime u tz)
          = some (.Datetime u tz') ↔ tz = tz')) := by
  refine ⟨⟨rfl, rfl⟩, ⟨rfl, rfl⟩, ⟨rfl, rfl⟩, ⟨rfl, rfl⟩,
    ⟨rfl, ?_⟩, ⟨rfl, ?_⟩, ⟨rfl, ?_⟩⟩ <;>
    simp [GetOutput.resolve]

/-- C3 counterexample: `Duration` lies inside the claimed valid domain
(it carries a time unit), yet the `with_time_zone` kernel rejects it with
the "has got no time zone" error — the valid domain of `with_time_zone` is
only `Datetime`, not the claimed set of both temporal-unit types. -/
theorem with_time_zone_rejects_duration :
    DataType.hasTimeUnit (DataType.Duration TimeUnit.Nanoseconds) = true
    ∧ withTimeZoneKernel none ⟨"a", DataType.Duration TimeUnit.Nanoseconds⟩
      = Except.error (.ComputeError
          "Series of dtype Duration(Nanoseconds) has got no time zone") :=
  ⟨rfl, rfl⟩

/-- C3 (amended): each kernel returns a recoverable `ComputeError` whose
message names the offending dtype exactly when the input's runtime type lies
outside that kernel's own valid domain, and succeeds inside the domain; the
domain is `Datetime` or `Duration` for `cast_time_unit` and `with_time_unit`,
and `Datetime` alone for `with_time_zone`. The kernels total functions into
`Except` — no panic on any input. -/
theorem time_unit_zone_kernel_domains (tu : TimeUnit)
    (tz : Option TimeZone) (s : Series) :
    ((∃ s', castTimeUnitKernel tu s = .ok s') ↔ s.dtype.hasTimeUnit = true)
    ∧ ((∃ s', withTimeUnitKernel tu s = .ok s') ↔ s.dtype.hasTimeUnit = true)
    ∧ ((∃ s', withTimeZoneKernel tz s = .ok s') ↔ s.dtype.isDatetime = true)
    ∧ (s.dtype.hasTimeUnit = false →
        castTimeUnitKernel tu s = .error (.ComputeError
          ("Series of dtype " ++ s.dtype.fmtDebug ++ " has got no time unit")))
    ∧ (s.dtype.hasTimeUnit = false →
        withTimeUnitKernel tu s = .error (.ComputeError
          ("Series of dtype " ++ s.dtype.fmtDebug ++ " has got no time unit")))
    ∧ (s.dtype.isDatetime = false →
        withTimeZoneKernel tz s = .error (.ComputeError
          ("Series of dtype " ++ s.dtype.fmtDebug
            ++ " has got no time zone"))) := by
  obtain ⟨nm, dt⟩ := s
  cases dt <;>
    simp [castTimeUnitKernel, withTimeUnitKernel, withTimeZoneKernel,
      DataType.hasTimeUnit, DataType.isDatetime]

/-- C3 witness: the amended theorem applied to a concrete `Utf8` column. -/
theorem time_unit_zone_kernel_domains_witness :
    castTimeUnitKernel TimeUnit.Milliseconds ⟨"a", DataType.Utf8⟩
      = Except.error (.ComputeError
          "Series of dtype Utf8 has got no time unit") :=
  (time_unit_zone_kernel_domains TimeUnit.Milliseconds none
    ⟨"a", DataType.Utf8⟩).2.2.2.1 rfl

/-- C4: the `map_dtype` rule of `cast_time_unit` sends `Duration(u)` to
`Duration(tu)` and `Datetime(u, tz)` to `Datetime(tu, tz)` for every target
unit, every input unit and every zone, preserving the zone unchanged. -/
theorem cast_time_unit_rule_maps (tu u : TimeUnit) (tz : Option TimeZone) :
    castTimeUnitDtypeMap tu (.Duration u) = some (.Duration tu)
    ∧ castTimeUnitDtypeMap tu (.Datetime u tz) = some (.Datetime tu tz) :=
  ⟨rfl, rfl⟩

/-- C5 counterexample: `cast_time_unit` does not construct a catalog
`FunctionId` — the node it builds is an anonymous-closure node, unlike
`year()`, which does attach a `FunctionExpr` to the expression node. -/
theorem cast_time_unit_not_catalog :
    Expr.isCatalogApply
        (DateLikeNameSpace.cast_time_unit ⟨Expr.column "a"⟩
          TimeUnit.Milliseconds) = false
    ∧ Expr.isCatalogApply (DateLikeNameSpace.year ⟨Expr.column "a"⟩)
        = true :=
  ⟨rfl, rfl⟩

/-- C5 (amended): the fourteen builders `year` through `timestamp(tu)` and
`offset_by(d)` each attach exactly one catalog `FunctionExpr` variant with
its parameters captured; the four builders `strftime`, `cast_time_unit`,
`with_time_unit` and `with_time_zone` instead attach an anonymous kernel
closure together with its output-type rule (and for `strftime` a display
name), not a catalog `FunctionId`. -/
theorem namespace_builders (e : Expr) (tu : TimeUnit) (tz : Option TimeZone)
    (fmt : String) (d : Duration) :
    DateLikeNameSpace.year ⟨e⟩ = Expr.function e (.TemporalExpr .Year)
    ∧ DateLikeNameSpace.iso_year ⟨e⟩
        = Expr.function e (.TemporalExpr .IsoYear)
    ∧ DateLikeNameSpace.month ⟨e⟩ = Expr.function e (.TemporalExpr .Month)
    ∧ DateLikeNameSpace.quarter ⟨e⟩
        = Expr.function e (.TemporalExpr .Quarter)
    ∧ DateLikeNameSpace.week ⟨e⟩ = Expr.function e (.TemporalExpr .Week)
    ∧ DateLikeNameSpace.weekday ⟨e⟩
        = Expr.function e (.TemporalExpr .WeekDay)
    ∧ DateLikeNameSpace.day ⟨e⟩ = Expr.function e (.TemporalExpr .Day)
    ∧ DateLikeNameSpace.ordinal_day ⟨e⟩
        = Expr.function e (.TemporalExpr .OrdinalDay)
    ∧ DateLikeNameSpace.hour ⟨e⟩ = Expr.function e (.TemporalExpr .Hour)
    ∧ DateLikeNameSpace.minute ⟨e⟩ = Expr.function e (.TemporalExpr .Minute)
    ∧ DateLikeNameSpace.second ⟨e⟩ = Expr.function e (.TemporalExpr .Second)
    ∧ DateLikeNameSpace.nanosecond ⟨e⟩
        = Expr.function e (.TemporalExpr .NanoSecond)
    ∧ DateLikeNameSpace.timestamp ⟨e⟩ tu
        = Expr.function e (.TemporalExpr (.TimeStamp tu))
    ∧ DateLikeNameSpace.offset_by ⟨e⟩ d = Expr.function e (.DateOffset d)
    ∧ DateLikeNameSpace.strftime ⟨e⟩ fmt
        = Expr.anonymousMap e (strftimeKernel fmt)
            (GetOutput.fromType DataType.Utf8) (some "strftime")
    ∧ DateLikeNameSpace.cast_time_unit ⟨e⟩ tu
        = Expr.anonymousMap e (castTimeUnitKernel tu)
            (GetOutput.mapDtype (castTimeUnitDtypeMap tu)) none
    ∧ DateLikeNameSpace.with_time_unit ⟨e⟩ tu
        = Expr.anonymousMap e (withTimeUnitKernel tu) GetOutput.sameType none
    ∧ DateLikeNameSpace.with_time_zone ⟨e⟩ tz
        = Expr.anonymousMap e (withTimeZoneKernel tz) GetOutput.sameType
            none :=
  ⟨rfl, rfl, rfl, rfl, rfl, rfl, rfl, rfl, rfl, rfl, rfl, rfl, rfl, rfl,
   rfl, rfl, rfl, rfl⟩

/-- C6: evaluating the `map_dtype` rule of `cast_time_unit` panics (`none`)
exactly on input types outside the `Duration`/`Datetime` domain; under the
precondition that the input carries a time unit the panic branch is
unreachable (the rule yields a type). -/
theorem cast_time_unit_rule_panics_outside_domain (tu : TimeUnit)
    (dt : DataType) :
    castTimeUnitDtypeMap tu dt = none ↔ dt.hasTimeUnit = false := by
  cases dt <;> simp [castTimeUnitDtypeMap, DataType.hasTimeUnit]

/-- C7: the display of a `Clip` entry is chosen by which optional bounds are
present — both render "clip", only the minimum renders "clip_min", only the
maximum renders "clip_max" — for all bound values. -/
theorem clip_display_names (a b : AnyValue) :
    FunctionExpr.displayName (.Clip (some a) (some b)) = some "clip"
    ∧ FunctionExpr.displayName (.Clip (some a) none) = some "clip_min"
    ∧ FunctionExpr.displayName (.Clip none (some b)) = some "clip_max" :=
  ⟨rfl, rfl, rfl⟩

/-- C8 counterexample: two `Clip` values of the same variant that differ only
by parameter value (which bound is populated) render different display
names, "clip_min" against "clip_max" — the display is not a function of the
variant alone. -/
theorem clip_display_depends_on_params :
    FunctionExpr.displayName (.Clip (some (.mk 0)) none) = some "clip_min"
    ∧ FunctionExpr.displayName (.Clip none (some (.mk 0)))
        = some "clip_max"
    ∧ (some "clip_min" : Option String) ≠ some "clip_max" :=
  ⟨rfl, rfl, by decide⟩

/-- C8 (amended): the display name is deterministic and, for every
parameterized variant except `Clip`, independent of the parameter values
(different hash keys, offsets, super-types, window sizes, shift periods,
k values, timestamp units, field indices or names render the same name);
for `Clip` it depends only on which bounds are present, not on their
values. -/
theorem display_param_independent (k0 k1 k2 k3 j0 j1 j2 j3 : Nat)
    (d d' : Duration) (t t' : DataType) (w w' : Nat) (bi bi' : Bool)
    (p p' q q' : Int) (k k' : Nat) (r r' : Bool) (tu tu' : TimeUnit)
    (i i' : Nat) (nm nm' : String) (a a' b b' : AnyValue) :
    FunctionExpr.displayName (.Hash k0 k1 k2 k3)
        = FunctionExpr.displayName (.Hash j0 j1 j2 j3)
    ∧ FunctionExpr.displayName (.DateOffset d)
        = FunctionExpr.displayName (.DateOffset d')
    ∧ FunctionExpr.displayName (.FillNull t)
        = FunctionExpr.displayName (.FillNull t')
    ∧ FunctionExpr.displayName (.RollingSkew w bi)
        = FunctionExpr.displayName (.RollingSkew w' bi')
    ∧ FunctionExpr.displayName (.ShiftAndFill p)
        = FunctionExpr.displayName (.ShiftAndFill p')
    ∧ FunctionExpr.displayName (.TopK k r)
        = FunctionExpr.displayName (.TopK k' r')
    ∧ FunctionExpr.displayName (.Shift q)
        = FunctionExpr.displayName (.Shift q')
    ∧ FunctionExpr.displayName (.TemporalExpr (.TimeStamp tu))
        = FunctionExpr.displayName (.TemporalExpr (.TimeStamp tu'))
    ∧ FunctionExpr.displayName (.StructExpr (.FieldByIndex i))
        = FunctionExpr.displayName (.StructExpr (.FieldByIndex i'))
    ∧ FunctionExpr.displayName (.StructExpr (.FieldByName nm))
        = FunctionExpr.displayName (.StructExpr (.FieldByName nm'))
    ∧ FunctionExpr.displayName (.Clip (some a) (some b))
        = FunctionExpr.displayName (.Clip (some a') (some b'))
    ∧ FunctionExpr.displayName (.Clip (some a) none)
        = FunctionExpr.displayName (.Clip (some a') none)
    ∧ FunctionExpr.displayName (.Clip none (some b))
        = FunctionExpr.displayName (.Clip none (some b')) :=
  ⟨rfl, rfl, rfl, rfl, rfl, rfl, rfl, rfl, rfl, rfl, rfl, rfl, rfl⟩

/-- C9 counterexample: the `Clip` value with neither bound present is a
perfectly constructible value of the catalog type (nothing in the type
forbids it), and on it the display mapping falls into the panicking
`unreachable!()` branch. -/
theorem clip_no_bounds_constructible :
    FunctionExpr.displayName (.Clip none none) = none :=
  rfl

/-- C9 (amended): the catalog type itself admits a `Clip` with neither bound
(the invariant is not enforced by construction); the display mapping is
defined on a `Clip` value exactly when at least one bound is present, the
"neither" combination being the panicking unreachable branch. -/
theorem clip_display_defined_iff_bound_present (mn mx : Option AnyValue) :
    (FunctionExpr.displayName (.Clip mn mx)).isSome
      = (mn.isSome || mx.isSome) := by
  cases mn <;> cases mx <;> rfl

/-- C10 counterexample: the handle built for `FillNull` goes through
`map_as_slice!`, which forwards the whole slice without any index access;
invoked on an empty column list it reaches the inner kernel instead of
performing an out-of-bounds access — so not every wrapper-built handle
unconditionally reads the first element. -/
theorem map_as_slice_no_index_on_empty :
    (toKernelHandle Features.allOn ExternalKernels.trivialSet
        (.FillNull DataType.Boolean)).map (fun h => h [])
      = some (some (Except.ok ⟨"", DataType.Boolean⟩)) :=
  rfl

/-- C10 (amended): handles built by `map!`, `map_owned!` and the inline
`NullCount` closure read the first element of the input slice — an empty
list is an out-of-bounds access (`none`) and a non-empty list reaches the
inner kernel — while `map_as_slice!` (and `wrap!`) forward the whole slice
to the inner kernel without indexing, imposing no non-empty precondition of
their own. -/
theorem wrapper_first_element_access
    (f : Series → Except PolarsError Series)
    (g : List Series → Except PolarsError Series) (s : Series)
    (rest ss : List Series) :
    mapWrap f [] = none
    ∧ mapOwnedWrap f [] = none
    ∧ nullCountKernel [] = none
    ∧ mapWrap f (s :: rest) = some (f s)
    ∧ mapOwnedWrap f (s :: rest) = some (f s)
    ∧ nullCountKernel (s :: rest)
        = some (Except.ok ⟨s.name, DataType.UInt32⟩)
    ∧ mapAsSliceWrap g ss = some (g ss)
    ∧ wrapUdf g ss = some (g ss) :=
  ⟨rfl, rfl, rfl, rfl, rfl, rfl, rfl, rfl⟩

end Polars
